import Mathlib

/-!
Verification of the network-structure configuration engine of cxxnet
(src/nnet/nnet_config.h).  The development gives a shallow embedding of
the NetConfig object and its operations: the declaration parser
(GetLayerInfo), the graph builder (Configure), the metadata initializer
(InitNet) and the structure codec (SaveNet / LoadNet).  Fatal failures
(utils::Check, utils::Assert, utils::Error) are modelled with the
Except String monad; an out-of-bounds std::vector access, which is
undefined behavior in the C++ source, is modelled as a distinguished
error value.  Machine integers (int fields, enum tags) are modelled as
Int; the 32-bit unsigned values of input_shape are reduced mod 2^32.
-/

deriving instance DecidableEq for Except

namespace Cxxnet

/-! ## Layer type catalog -/

/-- Modelled from the spec: the layer-type catalog (layer::GetLayerType and the
layer::LayerType enum live in src/layer/layer.h, which is not part of this
source tree).  The catalog resolves a closed set of type names to integer
enum tags, with a distinguished shared kind; the concrete numeric codes are
representative (distinct non-negative integers, as for a C++ enum). -/
def kFullConnect : Int := 1

def kSoftmax : Int := 2

def kRectifiedLinear : Int := 3

def kSigmoid : Int := 4

def kTanh : Int := 5

def kConv : Int := 6

def kDropout : Int := 7

def kFlatten : Int := 8

def kSharedLayer : Int := 9

/-- Modelled from the spec: name resolution of the layer-type catalog; an
unrecognized name is the fatal condition "unknown layer type". -/
def GetLayerType (s : String) : Except String Int :=
  if s = "fullc" then .ok kFullConnect
  else if s = "softmax" then .ok kSoftmax
  else if s = "relu" then .ok kRectifiedLinear
  else if s = "sigmoid" then .ok kSigmoid
  else if s = "tanh" then .ok kTanh
  else if s = "conv" then .ok kConv
  else if s = "dropout" then .ok kDropout
  else if s = "flatten" then .ok kFlatten
  else if s = "shared" then .ok kSharedLayer
  else .error ("unknown layer type " ++ s)

/-! ## Data model (NetConfig::NetParam, NetConfig::LayerInfo, NetConfig) -/

/-- NetConfig::NetParam (nnet_config.h lines 27-46).  The reserved[32]
padding block is omitted: it is zero-initialized, never consulted, and
copied verbatim by the codec as part of the fixed-layout record.
input_shape is the mshadow::Shape3 (z, y, x) triple. -/
structure NetParam where
  num_nodes : Int
  num_layers : Int
  input_shape : Int × Int × Int
  init_end : Int
deriving DecidableEq, Repr

/-- The default-constructed NetParam. -/
def NetParam.new : NetParam :=
  { num_nodes := 0, num_layers := 0, input_shape := (0, 0, 0), init_end := 0 }

/-- NetConfig::LayerInfo (nnet_config.h lines 48-76). -/
structure LayerInfo where
  type : Int
  primary_layer_index : Int
  nindex_in : List Int
  nindex_out : List Int
deriving DecidableEq, Repr

/-- NetConfig::LayerInfo::operator== (lines 63-75): compares type, primary
layer index, and both node-index sequences (size check followed by an
element-wise loop equals list equality). -/
def LayerInfo.eqOp (a b : LayerInfo) : Bool :=
  a.type == b.type && a.primary_layer_index == b.primary_layer_index &&
  a.nindex_in == b.nindex_in && a.nindex_out == b.nindex_out

/-- The NetConfig object (lines 25-248): general parameters, the layer
descriptor sequence, the tag registry (std::map modelled as an association
list), the updater name, and the two free-form settings collections. -/
structure NetConfig where
  param : NetParam
  layers : List LayerInfo
  layer_name_map : List (String × Int)
  updater_type : String
  defcfg : List (String × String)
  layercfg : List (List (String × String))
deriving DecidableEq, Repr

/-- The NetConfig constructor (lines 95-97). -/
def NetConfig.new : NetConfig :=
  { param := NetParam.new, layers := [], layer_name_map := [],
    updater_type := "sgd", defcfg := [], layercfg := [] }

/-! ## std::map and std::vector helpers -/

/-- std::map lookup (used for both count and operator[] reads). -/
def mapFind : List (String × Int) → String → Option Int
  | [], _ => none
  | (k, v) :: r, q => if k = q then some v else mapFind r q

/-- std::map operator[] assignment: overwrite the entry if present,
otherwise append a new one. -/
def mapAssign : List (String × Int) → String → Int → List (String × Int)
  | [], q, v => [(q, v)]
  | (k, w) :: r, q, v => if k = q then (k, v) :: r else (k, w) :: mapAssign r q v

/-- std::vector read at an int index; none models an out-of-bounds access. -/
def vecAt {α : Type} (l : List α) (i : Int) : Option α :=
  if i < 0 then none else l.get? i.toNat

/-- std::vector write at an int index (callers only use it in bounds). -/
def vecSet {α : Type} (l : List α) (i : Int) (x : α) : List α :=
  if i < 0 then l else l.set i.toNat x

/-- std::vector::resize with a default element. -/
def listResize {α : Type} (l : List α) (n : Nat) (d : α) : List α :=
  l.take n ++ List.replicate (n - l.length) d

/-! ## sscanf micro-grammars

The source parses declaration tokens with sscanf patterns
(lines 197, 200, 208 and 153).  A %d conversion skips leading
whitespace, accepts an optional sign and a non-empty digit run; literal
format characters match exactly; matching stops at the first failing
directive and trailing input is ignored. -/

/-- The whitespace set of isspace, as skipped by %d, %u and %s. -/
def isSpaceCh (c : Char) : Bool :=
  c = ' ' || c = '\t' || c = '\n' || c = '\r' || c = '\x0b' || c = '\x0c'

/-- A non-empty run of decimal digits with its value. -/
def scanDigits (s : List Char) : Option (Nat × List Char) :=
  let ds := s.takeWhile Char.isDigit
  if ds.isEmpty then none
  else some (ds.foldl (fun a c => 10 * a + (c.toNat - 48)) 0, s.dropWhile Char.isDigit)

/-- One %d conversion: skip whitespace, optional sign, digits. -/
def scanIntCh (s : List Char) : Option (Int × List Char) :=
  let s := s.dropWhile isSpaceCh
  match s with
  | '+' :: r =>
    match scanDigits r with
    | some (n, r') => some ((n : Int), r')
    | none => none
  | '-' :: r =>
    match scanDigits r with
    | some (n, r') => some (-(n : Int), r')
    | none => none
  | _ =>
    match scanDigits s with
    | some (n, r') => some ((n : Int), r')
    | none => none

/-- One %u conversion: as %d, with the value converted to 32-bit unsigned. -/
def scanU32 (s : List Char) : Option (Int × List Char) :=
  match scanIntCh s with
  | some (v, r) => some (Int.emod v 4294967296, r)
  | none => none

/-- Match a literal character sequence of a scanf format. -/
def expectChars : List Char → List Char → Option (List Char)
  | [], s => some s
  | _ :: _, [] => none
  | c :: p, d :: s => if c = d then expectChars p s else none

/-- sscanf(name, "layer[%d->%d]", &a, &b) == 2 (line 197). -/
def scanLayerArrow (s : List Char) : Option (Int × Int) :=
  match expectChars "layer[".data s with
  | none => none
  | some s1 =>
    match scanIntCh s1 with
    | none => none
    | some (a, s2) =>
      match expectChars "->".data s2 with
      | none => none
      | some s3 =>
        match scanIntCh s3 with
        | none => none
        | some (b, s4) =>
          match expectChars "]".data s4 with
          | none => none
          | some _ => some (a, b)

/-- sscanf(name, "layer[+%d]", &b) == 1 (line 200). -/
def scanLayerPlus (s : List Char) : Option Int :=
  match expectChars "layer[+".data s with
  | none => none
  | some s1 =>
    match scanIntCh s1 with
    | none => none
    | some (b, s2) =>
      match expectChars "]".data s2 with
      | none => none
      | some _ => some b

/-- sscanf(val, "%[^:]:%s", ltype, tag) == 2 (line 208): a non-empty run
of characters other than a colon, the literal colon, then a %s token
(leading whitespace skipped, non-empty run of non-whitespace). -/
def parseTypeTag (val : String) : Option (String × String) :=
  let l := val.data
  let lt := l.takeWhile (fun c => c ≠ ':')
  if lt.isEmpty then none
  else
    match l.dropWhile (fun c => c ≠ ':') with
    | ':' :: rest =>
      let r2 := rest.dropWhile isSpaceCh
      let tg := r2.takeWhile (fun c => !isSpaceCh c)
      if tg.isEmpty then none else some (⟨lt⟩, ⟨tg⟩)
    | _ => none

/-- sscanf(val, "%u,%u,%u", &z, &y, &x) == 3 (line 153). -/
def parseShape (val : String) : Option (Int × Int × Int) :=
  match scanU32 val.data with
  | none => none
  | some (z, s1) =>
    match expectChars ",".data s1 with
    | none => none
    | some s2 =>
      match scanU32 s2 with
      | none => none
      | some (y, s3) =>
        match expectChars ",".data s3 with
        | none => none
        | some s4 =>
          match scanU32 s4 with
          | none => none
          | some (x, _) => some (z, y, x)

/-- strncmp(name, "layer[", 6) == 0 (line 161). -/
def strNcmpLayer (name : String) : Bool :=
  match expectChars "layer[".data name.data with
  | some _ => true
  | none => false

/-! ## Declaration parser (NetConfig::GetLayerInfo, lines 193-225) -/

/-- Value-token resolution (lines 207-213): either type:tag, resolving the
part before the colon, or the whole token as the type with an empty tag. -/
def resolveTypeTag (val : String) : Except String (Int × String) :=
  match parseTypeTag val with
  | some (lt, tg) =>
    match GetLayerType lt with
    | .ok t => .ok (t, tg)
    | .error e => .error e
  | none =>
    match GetLayerType val with
    | .ok t => .ok (t, "")
    | .error e => .error e

/-- Shared-layer resolution and tag registration (lines 214-223), applied
once the node connections are known.  Returns the descriptor together with
the possibly extended tag registry. -/
def finishLayerInfo (nin nout : List Int) (val : String) (cfg_layer_index : Int)
    (m : List (String × Int)) : Except String (LayerInfo × List (String × Int)) :=
  match resolveTypeTag val with
  | .error e => .error e
  | .ok (t, s_tag) =>
    if t = kSharedLayer then
      if s_tag = "" then .error "shared layer must specify tag of layer to share with"
      else
        match mapFind m s_tag with
        | none => .error ("shared layer tag " ++ s_tag ++ " is not defined before")
        | some p =>
          .ok ({ type := t, primary_layer_index := p,
                 nindex_in := nin, nindex_out := nout }, m)
    else
      match mapFind m s_tag with
      | some _ => .error ("layer tag " ++ s_tag ++ " is already defined")
      | none =>
        .ok ({ type := t, primary_layer_index := -1,
               nindex_in := nin, nindex_out := nout }, mapAssign m s_tag cfg_layer_index)

/-- NetConfig::GetLayerInfo (lines 193-225): resolve the name token through
the two sscanf patterns in order, then resolve the value token. -/
def GetLayerInfo (name val : String) (top_node cfg_layer_index : Int)
    (m : List (String × Int)) : Except String (LayerInfo × List (String × Int)) :=
  match scanLayerArrow name.data with
  | some (a, b) => finishLayerInfo [a] [b] val cfg_layer_index m
  | none =>
    match scanLayerPlus name.data with
    | some b => finishLayerInfo [top_node] [top_node + b] val cfg_layer_index m
    | none => .error ("invalid layer format " ++ name)

/-! ## Graph builder (NetConfig::Configure, lines 139-188) -/

/-- Error message of the Check at lines 169-171. -/
def mismatchMsg : String := "config setting does not match existing network structure"

/-- Error message of the Check at lines 180-181. -/
def sharedSetMsg : String := "please do not set parameters in shared layer, set them in primary layer"

/-- Error message of the Check at lines 153-154. -/
def shapeErrMsg : String :=
  "input_shape must be three consecutive integers without space example: 1,1,200 "

/-- Marker for an out-of-bounds std::vector access, which is undefined
behavior in the C++ source (reachable at lines 180 and 182 when
cfg_layer_index is 0). -/
def oobMsg : String := "undefined behavior: std::vector index out of range"

/-- The scan state of one Configure pass: the NetConfig being built or
checked plus the three local variables netcfg_mode, cfg_top_node and
cfg_layer_index (lines 141-146). -/
structure ScanSt where
  net : NetConfig
  netcfg_mode : Int
  cfg_top_node : Int
  cfg_layer_index : Int
deriving DecidableEq, Repr

/-- Lines 150-160 of the scan body: the input_shape update (only before
finalization; a malformed value is fatal), the updater update, and the two
netconfig mode switches.  None of these lines ends the loop iteration, so
control continues into the layer / settings dispatch afterwards. -/
def stepSpecial (st : ScanSt) (name val : String) : Except String ScanSt :=
  match (if st.net.param.init_end = 0 then
           (if name = "input_shape" then
              match parseShape val with
              | some sh =>
                Except.ok { st with net :=
                  { st.net with param := { st.net.param with input_shape := sh } } }
              | none => Except.error shapeErrMsg
            else Except.ok st)
         else Except.ok st : Except String ScanSt) with
  | .error e => .error e
  | .ok st1 =>
    let st2 := if name = "updater" then
                 { st1 with net := { st1.net with updater_type := val } } else st1
    let st3 := if name = "netconfig" ∧ val = "start" then
                 { st2 with netcfg_mode := 1 } else st2
    let st4 := if name = "netconfig" ∧ val = "end" then
                 { st3 with netcfg_mode := 2 } else st3
    .ok st4

/-- The successful outcome of stepSpecial as one pure state update (the
input_shape update applied when it parses, then the updater and netconfig
updates); stepSpecial only deviates from it by failing on a malformed
input_shape value before finalization (lemma stepSpecial_eq below). -/
def stepSpecialOk (st : ScanSt) (name val : String) : ScanSt :=
  let st1 := if st.net.param.init_end = 0 then
               (if name = "input_shape" then
                  (match parseShape val with
                   | some sh =>
                     { st with net :=
                       { st.net with param := { st.net.param with input_shape := sh } } }
                   | none => st)
                else st)
             else st
  let st2 := if name = "updater" then
               { st1 with net := { st1.net with updater_type := val } } else st1
  let st3 := if name = "netconfig" ∧ val = "start" then
               { st2 with netcfg_mode := 1 } else st2
  let st4 := if name = "netconfig" ∧ val = "end" then
               { st3 with netcfg_mode := 2 } else st3
  st4

/-- Lines 161-178: a layer declaration.  Parse it; on the first pass assert
index consistency and append the descriptor (growing layercfg to match); on
a later pass check the parsed descriptor against the stored one.  Then
update the top node from the first output index and advance the layer
index. -/
def stepLayerDecl (st : ScanSt) (name val : String) : Except String ScanSt :=
  match GetLayerInfo name val st.cfg_top_node st.cfg_layer_index st.net.layer_name_map with
  | .error e => .error e
  | .ok (info, m') =>
    let st := { st with net := { st.net with layer_name_map := m' }, netcfg_mode := 2 }
    match (if st.net.param.init_end = 0 then
             (if (st.net.layers.length : Int) = st.cfg_layer_index then
                Except.ok { st with net :=
                  { st.net with
                    layers := st.net.layers ++ [info],
                    layercfg := listResize st.net.layercfg (st.net.layers.length + 1) [] } }
              else Except.error "NetConfig inconsistent")
           else
             (if st.cfg_layer_index < (st.net.layers.length : Int) then
                match vecAt st.net.layers st.cfg_layer_index with
                | some l => if LayerInfo.eqOp info l then Except.ok st
                            else Except.error mismatchMsg
                | none => Except.error mismatchMsg
              else Except.error mismatchMsg) : Except String ScanSt) with
    | .error e => .error e
    | .ok st =>
      let st := match info.nindex_out with
        | o :: _ => { st with cfg_top_node := o }
        | [] => st
      .ok { st with cfg_layer_index := st.cfg_layer_index + 1 }

/-- Lines 179-185: every other key is a setting.  In mode 2 it is appended
to the settings of the last declared layer (fatal if that layer is shared;
the accesses at index cfg_layer_index - 1 are out of bounds when no layer
was declared); otherwise it is a global default setting. -/
def stepSetting (st : ScanSt) (name val : String) : Except String ScanSt :=
  if st.netcfg_mode = 2 then
    match vecAt st.net.layers (st.cfg_layer_index - 1) with
    | none => .error oobMsg
    | some l =>
      if l.type = kSharedLayer then .error sharedSetMsg
      else
        match vecAt st.net.layercfg (st.cfg_layer_index - 1) with
        | none => .error oobMsg
        | some lc =>
          .ok { st with net := { st.net with
            layercfg := vecSet st.net.layercfg (st.cfg_layer_index - 1)
                          (lc ++ [(name, val)]) } }
  else .ok { st with net := { st.net with defcfg := st.net.defcfg ++ [(name, val)] } }

/-- One iteration of the scan loop (lines 147-186). -/
def ConfigureStep (st : ScanSt) (kv : String × String) : Except String ScanSt :=
  match stepSpecial st kv.1 kv.2 with
  | .error e => .error e
  | .ok st => if strNcmpLayer kv.1 then stepLayerDecl st kv.1 kv.2
              else stepSetting st kv.1 kv.2

/-- The scan loop over the whole declaration sequence. -/
def ConfigureLoop : ScanSt → List (String × String) → Except String ScanSt
  | st, [] => .ok st
  | st, kv :: rest =>
    match ConfigureStep st kv with
    | .error e => .error e
    | .ok st' => ConfigureLoop st' rest

/-- NetConfig::ClearConfig (lines 242-247): clear the global defaults and
each per-layer settings list (the outer list keeps its length). -/
def ClearConfig (net : NetConfig) : NetConfig :=
  { net with
    defcfg := [],
    layercfg := net.layercfg.map (fun _ => ([] : List (String × String))) }

/-- NetConfig::InitNet (lines 227-240): node count is the running maximum of
index + 1 over all input then output indices of each descriptor, layer
count is the descriptor count, and the finalized flag is set. -/
def InitNet (net : NetConfig) : NetConfig :=
  let nn := net.layers.foldl (fun acc info =>
    let acc1 := info.nindex_in.foldl (fun a j => max (j + 1) a) acc
    info.nindex_out.foldl (fun a j => max (j + 1) a) acc1) 0
  { net with param :=
    { net.param with
      num_nodes := nn,
      num_layers := (net.layers.length : Int),
      init_end := 1 } }

/-- NetConfig::Configure (lines 139-188): clear the settings, scan the
declaration sequence, and finalize through InitNet on a first pass. -/
def Configure (net : NetConfig) (cfg : List (String × String)) : Except String NetConfig :=
  match ConfigureLoop { net := ClearConfig net, netcfg_mode := 0,
                        cfg_top_node := 0, cfg_layer_index := 0 } cfg with
  | .error e => .error e
  | .ok st => if st.net.param.init_end = 0 then .ok (InitNet st.net) else .ok st.net

/-! ## Structure codec (NetConfig::SaveNet / LoadNet, lines 104-135)

The byte stream is modelled at record granularity: one item is either the
fixed-layout NetParam record, a 4-byte scalar word (an int or an enum tag,
which share the same size and are interchangeable on the wire), or a
serialized std::vector of ints.  A read that finds the wrong record shape
or an exhausted stream is the fatal "invalid model file" condition. -/

inductive StreamItem where
  | pstruct : NetParam → StreamItem
  | word : Int → StreamItem
  | ivec : List Int → StreamItem
deriving DecidableEq, Repr

/-- The per-layer output of SaveNet (lines 109-112): primary layer index
first, then the type tag, then the two node-index vectors. -/
def saveLayer (l : LayerInfo) : List StreamItem :=
  [.word l.primary_layer_index, .word l.type, .ivec l.nindex_in, .ivec l.nindex_out]

/-- NetConfig::SaveNet (lines 104-114): write the parameter record, assert
num_layers matches the descriptor count, then write each layer. -/
def SaveNet (net : NetConfig) : Except String (List StreamItem) :=
  if net.param.num_layers = (net.layers.length : Int) then
    .ok (.pstruct net.param :: (net.layers.map saveLayer).flatten)
  else .error "model inconsistent"

/-- The read loop of LoadNet (lines 126-133): for each layer read the type
tag, the primary layer index, then the two node-index vectors, in that
order; any failing read is the fatal "invalid model file". -/
def loadLayers : Nat → List StreamItem → Except String (List LayerInfo × List StreamItem)
  | 0, s => .ok ([], s)
  | Nat.succ n, .word t :: .word p :: .ivec ni :: .ivec no :: rest =>
    (match loadLayers n rest with
     | .error e => .error e
     | .ok (ls, r) =>
       .ok ({ type := t, primary_layer_index := p,
              nindex_in := ni, nindex_out := no } :: ls, r))
  | Nat.succ _, _ => .error "NetConfig: invalid model file"

/-- NetConfig::LoadNet (lines 121-135): read the parameter record, resize
the descriptor and per-layer settings sequences to the recorded layer count
(each descriptor is then fully overwritten by the read loop), and clear the
free-form settings.  A negative recorded layer count would be a
std::vector::resize with a wrapped-around size_t in the C++ source. -/
def LoadNet (net : NetConfig) (s : List StreamItem) :
    Except String (NetConfig × List StreamItem) :=
  match s with
  | .pstruct p :: rest =>
    if p.num_layers < 0 then .error "undefined behavior: vector resize overflow"
    else
      match loadLayers p.num_layers.toNat rest with
      | .error e => .error e
      | .ok (ls, r) =>
        .ok (ClearConfig { net with
               param := p,
               layers := ls,
               layercfg := listResize net.layercfg p.num_layers.toNat [] }, r)
  | _ => .error "NetConfig: invalid model file"

/-! ## Concrete graphs used by the theorems -/

/-- One untagged fullc layer declaration. -/
def cfgOne : List (String × String) := [("layer[0->1]", "fullc")]

/-- The NetConfig produced by configuring cfgOne on a fresh object. -/
def netOne : NetConfig where
  param := { num_nodes := 2, num_layers := 1, input_shape := (0, 0, 0), init_end := 1 }
  layers := [{ type := kFullConnect, primary_layer_index := -1,
               nindex_in := [0], nindex_out := [1] }]
  layer_name_map := [("", 0)]
  updater_type := "sgd"
  defcfg := []
  layercfg := [[]]

/-- A two-layer declaration sequence with distinct tags. -/
def cfgTagged : List (String × String) :=
  [("layer[0->1]", "fullc:a"), ("layer[1->2]", "relu:b")]

/-- The NetConfig produced by configuring cfgTagged on a fresh object. -/
def netTagged : NetConfig where
  param := { num_nodes := 3, num_layers := 2, input_shape := (0, 0, 0), init_end := 1 }
  layers := [{ type := kFullConnect, primary_layer_index := -1,
               nindex_in := [0], nindex_out := [1] },
             { type := kRectifiedLinear, primary_layer_index := -1,
               nindex_in := [1], nindex_out := [2] }]
  layer_name_map := [("a", 0), ("b", 1)]
  updater_type := "sgd"
  defcfg := []
  layercfg := [[], []]

/-- The NetConfig produced by configuring a tagged fullc layer followed by a
shared layer referring to it. -/
def netShared : NetConfig where
  param := { num_nodes := 3, num_layers := 2, input_shape := (0, 0, 0), init_end := 1 }
  layers := [{ type := kFullConnect, primary_layer_index := -1,
               nindex_in := [0], nindex_out := [1] },
             { type := kSharedLayer, primary_layer_index := 0,
               nindex_in := [1], nindex_out := [2] }]
  layer_name_map := [("a", 0)]
  updater_type := "sgd"
  defcfg := []
  layercfg := [[], []]

/-! ## Helper lemmas -/

/-- stepSpecial succeeds with the pure update stepSpecialOk unless a
malformed input_shape value is rejected before finalization. -/
theorem stepSpecial_eq (st : ScanSt) (name val : String) :
    stepSpecial st name val =
      if st.net.param.init_end = 0 ∧ name = "input_shape" ∧ parseShape val = none
      then .error shapeErrMsg
      else .ok (stepSpecialOk st name val) := by
  unfold stepSpecial stepSpecialOk
  by_cases hie : st.net.param.init_end = 0 <;>
    by_cases hin : name = "input_shape" <;>
    simp only [hie, hin, if_true, if_false, true_and, false_and, and_false,
               ite_true, ite_false] <;>
    (cases hp : parseShape val <;> simp [hp])

/-- A key that is none of the special names leaves the state unchanged in
stepSpecialOk. -/
theorem stepSpecialOk_plain (st : ScanSt) (name val : String)
    (h2 : name ≠ "input_shape") (h3 : name ≠ "updater") (h4 : name ≠ "netconfig") :
    stepSpecialOk st name val = st := by
  simp [stepSpecialOk, h2, h3, h4]

/-- stepSpecialOk never touches the graph structure, the registry, the
settings, the finalization state or the two counters. -/
theorem stepSpecialOk_frame (st : ScanSt) (name val : String) :
    (stepSpecialOk st name val).net.layers = st.net.layers ∧
    (stepSpecialOk st name val).net.layer_name_map = st.net.layer_name_map ∧
    (stepSpecialOk st name val).net.defcfg = st.net.defcfg ∧
    (stepSpecialOk st name val).net.layercfg = st.net.layercfg ∧
    (stepSpecialOk st name val).net.param.init_end = st.net.param.init_end ∧
    (stepSpecialOk st name val).net.param.num_nodes = st.net.param.num_nodes ∧
    (stepSpecialOk st name val).net.param.num_layers = st.net.param.num_layers ∧
    (stepSpecialOk st name val).cfg_top_node = st.cfg_top_node ∧
    (stepSpecialOk st name val).cfg_layer_index = st.cfg_layer_index := by
  refine ⟨?_, ?_, ?_, ?_, ?_, ?_, ?_, ?_, ?_⟩ <;>
    (unfold stepSpecialOk; repeat' split) <;> rfl

/-- After finalization stepSpecialOk preserves the whole parameter record. -/
theorem stepSpecialOk_finalized_param (st : ScanSt) (name val : String)
    (hfin : ¬ st.net.param.init_end = 0) :
    (stepSpecialOk st name val).net.param = st.net.param := by
  unfold stepSpecialOk
  by_cases hu : name = "updater" <;>
    by_cases hs : name = "netconfig" ∧ val = "start" <;>
    by_cases he : name = "netconfig" ∧ val = "end" <;>
    simp [hfin, hu, hs, he]

/-- On a finalized graph a layer declaration that parses to a descriptor
differing from the stored one (or lies outside the stored range) fails
with the structure-mismatch error. -/
theorem stepLayerDecl_mismatch (st : ScanSt) (name val : String)
    (info : LayerInfo) (m' : List (String × Int))
    (hfin : ¬ st.net.param.init_end = 0)
    (hget : GetLayerInfo name val st.cfg_top_node st.cfg_layer_index
              st.net.layer_name_map = .ok (info, m'))
    (hmiss : (vecAt st.net.layers st.cfg_layer_index).all
               (fun l => !LayerInfo.eqOp info l) = true) :
    stepLayerDecl st name val = .error mismatchMsg := by
  unfold stepLayerDecl
  rw [hget]
  simp only [hfin, if_false, ite_false]
  by_cases hlt : st.cfg_layer_index < (st.net.layers.length : Int)
  · simp only [hlt, if_true, ite_true]
    cases hvec : vecAt st.net.layers st.cfg_layer_index with
    | none => simp [hvec]
    | some l =>
      rw [hvec] at hmiss
      simp only [Option.all_some, Bool.not_eq_true'] at hmiss
      simp [hvec, hmiss]
  · simp [hlt]

/-- On a finalized graph a successful layer declaration step never changes
the parameter record, the descriptors or the settings. -/
theorem stepLayerDecl_finalized_frame (st st' : ScanSt) (name val : String)
    (hfin : ¬ st.net.param.init_end = 0)
    (h : stepLayerDecl st name val = .ok st') :
    st'.net.param = st.net.param ∧ st'.net.layers = st.net.layers ∧
    st'.net.defcfg = st.net.defcfg ∧ st'.net.layercfg = st.net.layercfg := by
  unfold stepLayerDecl at h
  cases hget : GetLayerInfo name val st.cfg_top_node st.cfg_layer_index
      st.net.layer_name_map with
  | error e => rw [hget] at h; cases h
  | ok pr =>
    obtain ⟨info, m'⟩ := pr
    rw [hget] at h
    simp only [hfin, if_false, ite_false] at h
    by_cases hlt : st.cfg_layer_index < (st.net.layers.length : Int)
    · simp only [hlt, if_true, ite_true] at h
      cases hvec : vecAt st.net.layers st.cfg_layer_index with
      | none => rw [hvec] at h; cases h
      | some l =>
        rw [hvec] at h
        by_cases heq : LayerInfo.eqOp info l
        · simp only [heq, if_true, ite_true] at h
          cases hout : info.nindex_out with
          | nil => rw [hout] at h; cases h; exact ⟨rfl, rfl, rfl, rfl⟩
          | cons o rest => rw [hout] at h; cases h; exact ⟨rfl, rfl, rfl, rfl⟩
        · simp only [heq, if_false, ite_false] at h; cases h
    · simp only [hlt, if_false, ite_false] at h; cases h

/-- A successful settings step only appends to a settings collection. -/
theorem stepSetting_frame (st st' : ScanSt) (name val : String)
    (h : stepSetting st name val = .ok st') :
    st'.net.param = st.net.param ∧ st'.net.layers = st.net.layers ∧
    st'.net.layer_name_map = st.net.layer_name_map := by
  unfold stepSetting at h
  by_cases hm : st.netcfg_mode = 2
  · simp only [hm, if_true, ite_true] at h
    cases hvec : vecAt st.net.layers (st.cfg_layer_index - 1) with
    | none => rw [hvec] at h; cases h
    | some l =>
      rw [hvec] at h
      by_cases hsh : l.type = kSharedLayer
      · simp only [hsh, if_true, ite_true] at h; cases h
      · simp only [hsh, if_false, ite_false] at h
        cases hvc : vecAt st.net.layercfg (st.cfg_layer_index - 1) with
        | none => rw [hvc] at h; cases h
        | some lc => rw [hvc] at h; cases h; exact ⟨rfl, rfl, rfl⟩
  · simp only [hm, if_false, ite_false] at h; cases h; exact ⟨rfl, rfl, rfl⟩

/-- Appending a setting while the last declared layer is shared is the
fatal shared-settings error. -/
theorem stepSetting_shared_error (st : ScanSt) (name val : String) (l : LayerInfo)
    (hmode : st.netcfg_mode = 2)
    (hat : vecAt st.net.layers (st.cfg_layer_index - 1) = some l)
    (hsh : l.type = kSharedLayer) :
    stepSetting st name val = .error sharedSetMsg := by
  unfold stepSetting
  simp [hmode, hat, hsh]

/-- One Configure iteration on a finalized graph preserves the parameter
record and the descriptors. -/
theorem configureStep_finalized_frame (st st' : ScanSt) (kv : String × String)
    (hfin : ¬ st.net.param.init_end = 0)
    (h : ConfigureStep st kv = .ok st') :
    st'.net.param = st.net.param ∧ st'.net.layers = st.net.layers := by
  unfold ConfigureStep at h
  rw [stepSpecial_eq] at h
  rw [if_neg (fun hc => hfin hc.1)] at h
  simp only [] at h
  have hfr := stepSpecialOk_frame st kv.1 kv.2
  have hp := stepSpecialOk_finalized_param st kv.1 kv.2 hfin
  have hfin1 : ¬ (stepSpecialOk st kv.1 kv.2).net.param.init_end = 0 := by
    rw [hp]; exact hfin
  by_cases hl : strNcmpLayer kv.1
  · rw [if_pos hl] at h
    obtain ⟨h1, h2, _, _⟩ :=
      stepLayerDecl_finalized_frame (stepSpecialOk st kv.1 kv.2) st' kv.1 kv.2 hfin1 h
    exact ⟨h1.trans hp, h2.trans hfr.1⟩
  · rw [if_neg hl] at h
    obtain ⟨h1, h2, _⟩ := stepSetting_frame (stepSpecialOk st kv.1 kv.2) st' kv.1 kv.2 h
    exact ⟨h1.trans hp, h2.trans hfr.1⟩

/-- The whole scan loop on a finalized graph preserves the parameter
record and the descriptors. -/
theorem configureLoop_finalized_frame :
    ∀ (cfg : List (String × String)) (st st' : ScanSt),
    ¬ st.net.param.init_end = 0 → ConfigureLoop st cfg = .ok st' →
    st'.net.param = st.net.param ∧ st'.net.layers = st.net.layers := by
  intro cfg
  induction cfg with
  | nil =>
    intro st st' _ hl
    unfold ConfigureLoop at hl
    cases hl
    exact ⟨rfl, rfl⟩
  | cons kv rest ih =>
    intro st st' hfin hl
    unfold ConfigureLoop at hl
    cases hstep : ConfigureStep st kv with
    | error e => rw [hstep] at hl; cases hl
    | ok st1 =>
      rw [hstep] at hl
      have hfr := configureStep_finalized_frame st st1 kv hfin hstep
      have hfin1 : ¬ st1.net.param.init_end = 0 := by rw [hfr.1]; exact hfin
      obtain ⟨a, b⟩ := ih st1 st' hfin1 hl
      exact ⟨a.trans hfr.1, b.trans hfr.2⟩

/-- Configure on a finalized graph preserves the parameter record and the
descriptors whenever it succeeds. -/
theorem configure_finalized_frame (net net' : NetConfig) (cfg : List (String × String))
    (hfin : ¬ net.param.init_end = 0) (h : Configure net cfg = .ok net') :
    net'.param = net.param ∧ net'.layers = net.layers := by
  unfold Configure at h
  cases hl : ConfigureLoop ⟨ClearConfig net, 0, 0, 0⟩ cfg with
  | error e => rw [hl] at h; cases h
  | ok stf =>
    rw [hl] at h
    have hfr := configureLoop_finalized_frame cfg ⟨ClearConfig net, 0, 0, 0⟩ stf hfin hl
    have hfin2 : ¬ stf.net.param.init_end = 0 := by
      rw [hfr.1]; exact hfin
    dsimp only at h
    rw [if_neg hfin2] at h
    cases h
    exact hfr

/-- A successful finishLayerInfo keeps the node-index sequences it was
given. -/
theorem finishLayerInfo_nindex (nin nout : List Int) (val : String) (idx : Int)
    (m : List (String × Int)) (r : LayerInfo × List (String × Int))
    (h : finishLayerInfo nin nout val idx m = .ok r) :
    r.1.nindex_in = nin ∧ r.1.nindex_out = nout := by
  unfold finishLayerInfo at h
  cases hres : resolveTypeTag val with
  | error e => rw [hres] at h; cases h
  | ok pr =>
    obtain ⟨t, s_tag⟩ := pr
    rw [hres] at h
    by_cases hsh : t = kSharedLayer
    · simp only [hsh, if_true, ite_true] at h
      by_cases htg : s_tag = ""
      · simp only [htg, if_true, ite_true] at h; cases h
      · simp only [htg, if_false, ite_false] at h
        cases hf : mapFind m s_tag with
        | none => rw [hf] at h; cases h
        | some p => rw [hf] at h; cases h; exact ⟨rfl, rfl⟩
    · simp only [hsh, if_false, ite_false] at h
      cases hf : mapFind m s_tag with
      | some p => rw [hf] at h; cases h
      | none => rw [hf] at h; cases h; exact ⟨rfl, rfl⟩

/-! ## Theorems about the claims -/

/-- C1: the claim states that SaveNet followed by LoadNet reproduces
identical Network Parameters and Layer Descriptors.  The code violates it:
SaveNet writes the primary layer index before the type (lines 109-110)
while LoadNet reads the type before the primary layer index (lines
127-130), both as same-sized scalars, so a round trip swaps the two fields
of every descriptor.  This theorem evaluates the code at the failing
input: the finalized one-layer graph netOne saves and reloads to a
descriptor with type -1 and primary layer index kFullConnect. -/
theorem c1_save_load_swaps_type_and_primary :
  Configure NetConfig.new cfgOne = .ok netOne ∧
  SaveNet netOne = .ok [.pstruct netOne.param, .word (-1), .word kFullConnect,
                        .ivec [0], .ivec [1]] ∧
  LoadNet NetConfig.new [.pstruct netOne.param, .word (-1), .word kFullConnect,
                         .ivec [0], .ivec [1]] =
    .ok ({ netOne with
           layers := [{ type := -1, primary_layer_index := kFullConnect,
                        nindex_in := [0], nindex_out := [1] }],
           layer_name_map := [] }, []) ∧
  [{ type := -1, primary_layer_index := kFullConnect,
     nindex_in := [0], nindex_out := [1] }] ≠ netOne.layers := by
  refine ⟨by decide, by decide, by decide, by decide⟩

/-- C2: the claim states that a second Configure call with the identical
declaration sequence succeeds and changes nothing.  The code violates it:
the tag registry persists across Configure calls and GetLayerInfo
registers every non-shared declaration under its tag (the empty string
when untagged, lines 219-223), so replaying cfgOne fails the Check
"layer tag ... is already defined". -/
theorem c2_second_identical_configure_fails :
  Configure NetConfig.new cfgOne = .ok netOne ∧
  Configure netOne cfgOne = .error "layer tag  is already defined" := by
  refine ⟨by decide, by decide⟩

/-- C3: the claim states that the declarations layer[0->1]: fullc and
layer[1->2]: relu configure to node count 3 and layer count 2.  The code
violates the example: both declarations are untagged, the first registers
the empty tag, and the second fails the Check "layer tag ... is already
defined" (lines 220-222), so the graph is never built.  With distinct
tags the same shape does yield node count 3 and layer count 2, matching
the node-count rule of InitNet. -/
theorem c3_example_two_untagged_layers_rejected :
  Configure NetConfig.new [("layer[0->1]", "fullc"), ("layer[1->2]", "relu")] =
    .error "layer tag  is already defined" ∧
  Configure NetConfig.new cfgTagged = .ok netTagged ∧
  netTagged.param.num_nodes = 3 ∧ netTagged.param.num_layers = 2 := by
  refine ⟨by decide, by decide, by decide, by decide⟩

/-- C8: the claim states that an ordinary key seen when no layer has been
declared yet - even after a netconfig: end marker - is recorded as a
global default and no sequence is indexed at position -1.  The code
violates it: netconfig: end sets the mode flag to 2 (line 160) and falls
through to the settings branch, which evaluates layers[cfg_layer_index - 1]
with cfg_layer_index = 0 (lines 179-182), an out-of-bounds access, on a
fresh object and on a finalized one alike. -/
theorem c8_netconfig_end_without_layer_oob :
  Configure NetConfig.new [("netconfig", "end"), ("lr", "0.1")] = .error oobMsg ∧
  Configure netOne [("netconfig", "end"), ("lr", "0.1")] = .error oobMsg := by
  refine ⟨by decide, by decide⟩

/-- C5 counterexample: the claim states that a second pass differing at an
existing layer index fails with the structure-mismatch error.  Replaying
layer[0->2]: fullc over netOne differs from the stored descriptor in its
output node, yet it fails with "layer tag  is already defined" (raised in
GetLayerInfo at lines 220-221, before the comparison at lines 169-171),
not with the structure-mismatch message. -/
theorem c5_counterexample_tag_error_not_mismatch :
  Configure NetConfig.new cfgOne = .ok netOne ∧
  Configure netOne [("layer[0->2]", "fullc")] = .error "layer tag  is already defined" ∧
  "layer tag  is already defined" ≠ mismatchMsg := by
  refine ⟨by decide, by decide, by decide⟩

/-- C6 counterexample: the claim states that layer[A->B] requires
non-negative integers and that every other name-token form is the fatal
"invalid layer format" error.  The %d conversions of sscanf accept signed
integers, so layer[-1->2] parses successfully with input node -1. -/
theorem c6_counterexample_negative_index_accepted :
  GetLayerInfo "layer[-1->2]" "fullc" 0 0 [] =
    .ok ({ type := kFullConnect, primary_layer_index := -1,
           nindex_in := [-1], nindex_out := [2] }, [("", 0)]) := by
  decide

/-- C7 counterexample: the claim states that a netconfig declaration with
value start or end is never recorded into any settings collection.  The
netconfig branch does not end the loop iteration, so the pair falls
through to the settings dispatch (lines 179-185): netconfig: start on a
fresh object lands in the global defaults. -/
theorem c7_counterexample_netconfig_recorded :
  Configure NetConfig.new [("netconfig", "start")] =
    .ok { NetConfig.new with
          param := { NetParam.new with init_end := 1 },
          defcfg := [("netconfig", "start")] } := by
  decide

/-- C10 counterexample: the claim states that a second pass matching a
proper prefix of the stored descriptors succeeds.  Replaying the first
declaration of cfgTagged verbatim matches the stored descriptor at index
0, yet it fails with "layer tag a is already defined" because the tag
registry persists across passes. -/
theorem c10_counterexample_prefix_tag_reuse_fails :
  Configure NetConfig.new cfgTagged = .ok netTagged ∧
  Configure netTagged [("layer[0->1]", "fullc:a")] =
    .error "layer tag a is already defined" := by
  refine ⟨by decide, by decide⟩

/-- C4: value-token resolution of one declaration (lines 207-223).  For a
declaration whose name token parses, if the resolved type is the shared
kind then a missing tag is the tag-mandatory error, an unregistered tag is
the not-defined-before error, and a registered tag binds the primary layer
index to the recorded index without changing the registry; if the type is
not shared then an already registered tag (the empty string when absent)
is the already-defined error, and otherwise the tag is registered to the
current layer index.  The concrete conjuncts check the spec examples:
layer[2->3]: shared:mytag fails on an empty registry and binds primary
layer index 0 once layer[0->1]: fullc:mytag has registered mytag. -/
theorem c4_value_token_resolution :
  (∀ (name val : String) (top idx : Int) (m : List (String × Int)) (a b : Int),
    scanLayerArrow name.data = some (a, b) →
    ((resolveTypeTag val = .ok (kSharedLayer, "") →
        GetLayerInfo name val top idx m =
          .error "shared layer must specify tag of layer to share with") ∧
     (∀ tg : String, resolveTypeTag val = .ok (kSharedLayer, tg) → tg ≠ "" →
        mapFind m tg = none →
        GetLayerInfo name val top idx m =
          .error ("shared layer tag " ++ tg ++ " is not defined before")) ∧
     (∀ (tg : String) (p : Int), resolveTypeTag val = .ok (kSharedLayer, tg) → tg ≠ "" →
        mapFind m tg = some p →
        GetLayerInfo name val top idx m =
          .ok ({ type := kSharedLayer, primary_layer_index := p,
                 nindex_in := [a], nindex_out := [b] }, m)) ∧
     (∀ (t : Int) (tg : String) (p : Int), resolveTypeTag val = .ok (t, tg) →
        t ≠ kSharedLayer → mapFind m tg = some p →
        GetLayerInfo name val top idx m =
          .error ("layer tag " ++ tg ++ " is already defined")) ∧
     (∀ (t : Int) (tg : String), resolveTypeTag val = .ok (t, tg) →
        t ≠ kSharedLayer → mapFind m tg = none →
        GetLayerInfo name val top idx m =
          .ok ({ type := t, primary_layer_index := -1,
                 nindex_in := [a], nindex_out := [b] }, mapAssign m tg idx)))) ∧
  GetLayerInfo "layer[2->3]" "shared:mytag" 0 0 [] =
    .error "shared layer tag mytag is not defined before" ∧
  GetLayerInfo "layer[0->1]" "fullc:mytag" 0 0 [] =
    .ok ({ type := kFullConnect, primary_layer_index := -1,
           nindex_in := [0], nindex_out := [1] }, [("mytag", 0)]) ∧
  GetLayerInfo "layer[2->3]" "shared:mytag" 1 1 [("mytag", 0)] =
    .ok ({ type := kSharedLayer, primary_layer_index := 0,
           nindex_in := [2], nindex_out := [3] }, [("mytag", 0)]) := by
  refine ⟨?_, by decide, by decide, by decide⟩
  intro name val top idx m a b hname
  have hgf : GetLayerInfo name val top idx m = finishLayerInfo [a] [b] val idx m := by
    unfold GetLayerInfo; rw [hname]
  refine ⟨?_, ?_, ?_, ?_, ?_⟩
  · intro hres
    rw [hgf]; unfold finishLayerInfo; rw [hres]; simp
  · intro tg hres htg hf
    rw [hgf]; unfold finishLayerInfo; rw [hres]; simp [htg, hf]
  · intro tg p hres htg hf
    rw [hgf]; unfold finishLayerInfo; rw [hres]; simp [htg, hf]
  · intro t tg p hres ht hf
    rw [hgf]; unfold finishLayerInfo; rw [hres]; simp [ht, hf]
  · intro t tg hres ht hf
    rw [hgf]; unfold finishLayerInfo; rw [hres]; simp [ht, hf]

/-- Witness for C4: a tagged non-shared declaration registers its tag at
the current layer index. -/
theorem c4_value_token_resolution_witness :
  GetLayerInfo "layer[4->5]" "tanh:w" 9 3 [] =
    .ok ({ type := kTanh, primary_layer_index := -1,
           nindex_in := [4], nindex_out := [5] }, [("w", 3)]) :=
  (c4_value_token_resolution.1 "layer[4->5]" "tanh:w" 9 3 [] 4 5 (by decide)).2.2.2.2
    kTanh "w" (by decide) (by decide) (by decide)

/-- C5 (amended): on a finalized graph a layer declaration whose parsed
descriptor does not equal the stored descriptor at the running index (or
whose index is out of range) fails with the structure-mismatch error,
provided GetLayerInfo itself succeeded; the concrete conjuncts show the
error is reached by a fresh-tag fullc redeclaration with a changed output
node and by a shared redeclaration of a changed layer.  (When the
declaration reuses a registered tag, GetLayerInfo fails first with the
already-defined error: see the counterexample.)  In the Except embedding
an error discards the scan state, matching the fatal-abort semantics, so
the stored graph is never mutated by a failing pass. -/
theorem c5_mismatch_check_on_revalidation :
  (∀ (st : ScanSt) (name val : String) (info : LayerInfo) (m' : List (String × Int)),
    ¬ st.net.param.init_end = 0 →
    strNcmpLayer name = true →
    GetLayerInfo name val st.cfg_top_node st.cfg_layer_index st.net.layer_name_map =
      .ok (info, m') →
    (vecAt st.net.layers st.cfg_layer_index).all
      (fun l => !LayerInfo.eqOp info l) = true →
    ConfigureStep st (name, val) = .error mismatchMsg) ∧
  Configure netOne [("layer[0->2]", "fullc:b")] = .error mismatchMsg ∧
  Configure netTagged [("layer[0->2]", "shared:a")] = .error mismatchMsg := by
  refine ⟨?_, by decide, by decide⟩
  intro st name val info m' hfin hlay hget hmiss
  have h2 : name ≠ "input_shape" := by
    intro he; rw [he] at hlay; exact absurd hlay (by decide)
  have h3 : name ≠ "updater" := by
    intro he; rw [he] at hlay; exact absurd hlay (by decide)
  have h4 : name ≠ "netconfig" := by
    intro he; rw [he] at hlay; exact absurd hlay (by decide)
  unfold ConfigureStep
  dsimp only
  rw [stepSpecial_eq]
  rw [if_neg (fun hc => h2 hc.2.1)]
  dsimp only
  rw [stepSpecialOk_plain st name val h2 h3 h4]
  rw [if_pos hlay]
  exact stepLayerDecl_mismatch st name val info m' hfin hget hmiss

/-- Witness for C5: replaying layer[0->2]: fullc:b over the finalized
netOne (stored descriptor has output node 1) hits the mismatch error. -/
theorem c5_mismatch_check_on_revalidation_witness :
  ConfigureStep ⟨netOne, 0, 0, 0⟩ ("layer[0->2]", "fullc:b") = .error mismatchMsg :=
  c5_mismatch_check_on_revalidation.1 ⟨netOne, 0, 0, 0⟩ "layer[0->2]" "fullc:b"
    { type := kFullConnect, primary_layer_index := -1, nindex_in := [0], nindex_out := [2] }
    [("", 0), ("b", 0)] (by decide) (by decide) (by decide) (by decide)

/-- C6 (amended): the name token is resolved by the two sscanf patterns in
order - layer[A->B] with %d integers (optionally signed, whitespace
skipped before each integer, text after the closing bracket ignored)
giving input node A and output node B, and layer[+B] giving input node =
top node and output node = top node + B - and a name matching neither
pattern is the fatal invalid-layer-format error.  The concrete conjuncts
check the spec example: layer[+1] with top node 2 resolves to input 2,
output 3. -/
theorem c6_name_token_grammar :
  (∀ (name val : String) (top idx : Int) (m : List (String × Int)),
    scanLayerArrow name.data = none → scanLayerPlus name.data = none →
    GetLayerInfo name val top idx m = .error ("invalid layer format " ++ name)) ∧
  (∀ (name val : String) (top idx : Int) (m : List (String × Int)) (a b : Int)
     (r : LayerInfo × List (String × Int)),
    scanLayerArrow name.data = some (a, b) →
    GetLayerInfo name val top idx m = .ok r →
    r.1.nindex_in = [a] ∧ r.1.nindex_out = [b]) ∧
  (∀ (name val : String) (top idx : Int) (m : List (String × Int)) (b : Int)
     (r : LayerInfo × List (String × Int)),
    scanLayerArrow name.data = none → scanLayerPlus name.data = some b →
    GetLayerInfo name val top idx m = .ok r →
    r.1.nindex_in = [top] ∧ r.1.nindex_out = [top + b]) ∧
  scanLayerArrow "layer[+1]".data = none ∧
  scanLayerPlus "layer[+1]".data = some 1 ∧
  GetLayerInfo "layer[+1]" "fullc" 2 0 [] =
    .ok ({ type := kFullConnect, primary_layer_index := -1,
           nindex_in := [2], nindex_out := [3] }, [("", 0)]) ∧
  GetLayerInfo "layer[5]" "fullc" 0 0 [] = .error "invalid layer format layer[5]" := by
  refine ⟨?_, ?_, ?_, by decide, by decide, by decide, by decide⟩
  · intro name val top idx m h1 h2
    unfold GetLayerInfo
    rw [h1, h2]
  · intro name val top idx m a b r h1 hok
    unfold GetLayerInfo at hok
    rw [h1] at hok
    exact finishLayerInfo_nindex _ _ _ _ _ _ hok
  · intro name val top idx m b r h1 h2 hok
    unfold GetLayerInfo at hok
    rw [h1, h2] at hok
    exact finishLayerInfo_nindex _ _ _ _ _ _ hok

/-- Witness for C6: a name matching neither pattern is rejected. -/
theorem c6_name_token_grammar_witness :
  GetLayerInfo "layer[x]" "relu" 0 0 [] = .error "invalid layer format layer[x]" :=
  c6_name_token_grammar.1 "layer[x]" "relu" 0 0 [] (by decide) (by decide)

/-- C7 (amended): netconfig: start switches the scan mode to 1 and
netconfig: end switches it to 2, and neither touches the graph structure;
but because the netconfig branch falls through to the settings dispatch,
the pair itself is also recorded: start always lands in the global
defaults (the mode is already 1 when the dispatch runs), and end lands in
the settings of the last declared layer (out of bounds when no layer was
declared yet). -/
theorem c7_netconfig_marker_behavior :
  (∀ st : ScanSt, ConfigureStep st ("netconfig", "start") =
     .ok { st with
           netcfg_mode := 1,
           net := { st.net with defcfg := st.net.defcfg ++ [("netconfig", "start")] } }) ∧
  (∀ (st : ScanSt) (l : LayerInfo) (lc : List (String × String)),
     vecAt st.net.layers (st.cfg_layer_index - 1) = some l → l.type ≠ kSharedLayer →
     vecAt st.net.layercfg (st.cfg_layer_index - 1) = some lc →
     ConfigureStep st ("netconfig", "end") =
       .ok { st with
             netcfg_mode := 2,
             net := { st.net with layercfg := vecSet st.net.layercfg (st.cfg_layer_index - 1) (lc ++ [("netconfig", "end")]) } }) ∧
  (∀ st : ScanSt, vecAt st.net.layers (st.cfg_layer_index - 1) = none →
     ConfigureStep st ("netconfig", "end") = .error oobMsg) := by
  have hok1 : ∀ st : ScanSt, stepSpecialOk st "netconfig" "start" =
      { st with netcfg_mode := 1 } := by
    intro st; unfold stepSpecialOk; simp
  have hok2 : ∀ st : ScanSt, stepSpecialOk st "netconfig" "end" =
      { st with netcfg_mode := 2 } := by
    intro st; unfold stepSpecialOk; simp
  refine ⟨?_, ?_, ?_⟩
  · intro st
    unfold ConfigureStep
    dsimp only
    rw [stepSpecial_eq]
    rw [if_neg (fun hc => absurd hc.2.1 (by decide))]
    dsimp only
    rw [hok1 st]
    rw [if_neg (by decide : ¬ strNcmpLayer "netconfig" = true)]
    unfold stepSetting
    simp
  · intro st l lc hat hsh hatc
    unfold ConfigureStep
    dsimp only
    rw [stepSpecial_eq]
    rw [if_neg (fun hc => absurd hc.2.1 (by decide))]
    dsimp only
    rw [hok2 st]
    rw [if_neg (by decide : ¬ strNcmpLayer "netconfig" = true)]
    unfold stepSetting
    dsimp only
    rw [hat]
    simp [hsh, hatc]
  · intro st hat
    unfold ConfigureStep
    dsimp only
    rw [stepSpecial_eq]
    rw [if_neg (fun hc => absurd hc.2.1 (by decide))]
    dsimp only
    rw [hok2 st]
    rw [if_neg (by decide : ¬ strNcmpLayer "netconfig" = true)]
    unfold stepSetting
    dsimp only
    rw [hat]
    simp

/-- Witness for C7: netconfig: end after one fullc layer is appended to
that layer's settings list. -/
theorem c7_netconfig_marker_behavior_witness :
  ConfigureStep ⟨netOne, 2, 1, 1⟩ ("netconfig", "end") =
    .ok ⟨{ netOne with layercfg := [[("netconfig", "end")]] }, 2, 1, 1⟩ :=
  c7_netconfig_marker_behavior.2.1 ⟨netOne, 2, 1, 1⟩
    { type := kFullConnect, primary_layer_index := -1, nindex_in := [0], nindex_out := [1] }
    [] (by decide) (by decide) (by decide)

/-- C9: during Configure an ordinary key seen in mode 2 while the last
declared layer is of the shared kind is the fatal shared-settings error,
so nothing is recorded (the error discards the scan state); the concrete
conjunct runs a whole Configure in which lr: 0.1 follows a shared layer. -/
theorem c9_setting_on_shared_layer_fails :
  (∀ (st : ScanSt) (name val : String) (l : LayerInfo),
    st.netcfg_mode = 2 →
    strNcmpLayer name = false →
    name ≠ "input_shape" → name ≠ "updater" → name ≠ "netconfig" →
    vecAt st.net.layers (st.cfg_layer_index - 1) = some l →
    l.type = kSharedLayer →
    ConfigureStep st (name, val) = .error sharedSetMsg) ∧
  Configure NetConfig.new
    [("layer[0->1]", "fullc:a"), ("layer[1->2]", "shared:a"), ("lr", "0.1")] =
    .error sharedSetMsg := by
  refine ⟨?_, by decide⟩
  intro st name val l hmode hlay h2 h3 h4 hat hsh
  unfold ConfigureStep
  dsimp only
  rw [stepSpecial_eq]
  rw [if_neg (fun hc => h2 hc.2.1)]
  dsimp only
  rw [stepSpecialOk_plain st name val h2 h3 h4]
  rw [if_neg (by simp [hlay] : ¬ strNcmpLayer name = true)]
  exact stepSetting_shared_error st name val l hmode hat hsh

/-- Witness for C9: the key lr after the shared layer of netShared. -/
theorem c9_setting_on_shared_layer_fails_witness :
  ConfigureStep ⟨netShared, 2, 2, 2⟩ ("lr", "0.1") = .error sharedSetMsg :=
  c9_setting_on_shared_layer_fails.1 ⟨netShared, 2, 2, 2⟩ "lr" "0.1"
    { type := kSharedLayer, primary_layer_index := 0, nindex_in := [1], nindex_out := [2] }
    (by decide) (by decide) (by decide) (by decide) (by decide) (by decide) (by decide)

/-- C10 (amended): re-validation never requires every existing layer to be
re-declared: a pass with no layer declarations at all succeeds and returns
the graph with only its free-form settings cleared; any successful pass on
a finalized graph leaves the parameter record and the descriptors
unchanged; and a matching proper-prefix pass succeeds when its non-shared
declarations use tags not already in the persisted registry (concrete
conjunct: re-declaring only layer 0 of netTagged under the fresh tag c).
A prefix declaration reusing a registered tag instead fails with the
already-defined error: see the counterexample. -/
theorem c10_revalidation_prefix_and_frame :
  (∀ net : NetConfig, ¬ net.param.init_end = 0 →
     Configure net [] = .ok (ClearConfig net)) ∧
  (∀ (net net' : NetConfig) (cfg : List (String × String)),
     ¬ net.param.init_end = 0 → Configure net cfg = .ok net' →
     net'.param = net.param ∧ net'.layers = net.layers) ∧
  Configure netTagged [("layer[0->1]", "fullc:c")] =
    .ok { netTagged with layer_name_map := [("a", 0), ("b", 1), ("c", 0)] } := by
  refine ⟨?_, ?_, by decide⟩
  · intro net hfin
    unfold Configure ConfigureLoop
    dsimp only
    have hce : (ClearConfig net).param.init_end = net.param.init_end := rfl
    rw [hce, if_neg hfin]
  · intro net net' cfg hfin h
    exact configure_finalized_frame net net' cfg hfin h

/-- Witness for C10: an empty pass over the finalized netOne succeeds and
only clears the settings. -/
theorem c10_revalidation_prefix_and_frame_witness :
  Configure netOne [] = .ok (ClearConfig netOne) :=
  c10_revalidation_prefix_and_frame.1 netOne (by decide)

end Cxxnet
